import Mathlib

/-!
Shallow embedding of the fx-di demo HTTP server (src/main.go together with
its two reduced variants).  Request and response bodies are byte lists; the
response writer is a record of the explicitly written status code (if any)
and the bytes written so far; I/O faults are injected explicitly: a request
body carries the bytes that are available before EOF or a read error, and
each write operation to the underlying connection takes a `WriteOutcome`
saying whether it succeeds or fails after some prefix of the data reached
the wire.  The `go srv.Serve(ln)` statement of the OnStart lifecycle hook is
modelled as emitting a background `ServeTask` value; returning from the hook
with the task merely recorded (not executed inline) models the non-blocking
spawn.
-/

/-- A single byte of a request or response body. -/
abbrev Byte := Nat

/-- A body is a byte sequence. -/
abbrev Bytes := List Byte

/-- An I/O error value, identified by an error code. -/
structure IOErr where
  code : Nat
  deriving DecidableEq, Repr

/-- The readable side of a request body stream: the bytes available before
the stream ends, ending either in clean EOF (`readErr = none`) or in a read
error after those bytes (`readErr = some e`). -/
structure Body where
  avail : Bytes
  readErr : Option IOErr
  deriving DecidableEq, Repr

/-- The part of `http.Request` the handlers use: the body stream. -/
structure Request where
  body : Body
  deriving DecidableEq, Repr

/-- A `zap.Logger` handle; handlers hold it by reference and never change it. -/
structure Logger where
  id : Nat
  deriving DecidableEq, Repr

/-- A structured log event emitted through the logger. -/
inductive LogEvent where
  | info (msg : String)
  | warn (msg : String)
  | error (msg : String)
  deriving DecidableEq, Repr

/-- The state of an `http.ResponseWriter`: the status code the handler
explicitly set (`none` when it never set one; net/http then reports 200)
and the body bytes written so far. -/
structure ResponseWriter where
  status : Option Nat
  wrote : Bytes
  deriving DecidableEq, Repr

/-- A fresh response writer, before the handler runs. -/
def ResponseWriter.init : ResponseWriter := { status := none, wrote := [] }

/-- The status code the response reports: the explicitly set one, or 200. -/
def ResponseWriter.effectiveStatus (w : ResponseWriter) : Nat :=
  w.status.getD 200

/-- Outcome of writing to the underlying connection during one request:
either every write succeeds, or the connection fails with error `e` after
`n` further bytes reached the wire. -/
inductive WriteOutcome where
  | ok
  | fail (n : Nat) (e : IOErr)
  deriving DecidableEq, Repr

/-- One `Write` call on the response writer (as issued by `fmt.Fprintf`):
on success all of `data` is appended; on failure only the prefix that
reached the wire is appended and the error is returned. -/
def ResponseWriter.write (w : ResponseWriter) (data : Bytes) (wo : WriteOutcome) :
    ResponseWriter × Option IOErr :=
  match wo with
  | .ok => ({ w with wrote := w.wrote ++ data }, none)
  | .fail n e => ({ w with wrote := w.wrote ++ data.take n }, some e)

/-- `io.ReadAll(r.Body)`: the bytes read until EOF or error, together with
the read error if one occurred. -/
def ReadAll (b : Body) : Bytes × Option IOErr :=
  (b.avail, b.readErr)

/-- `io.Copy(w, r.Body)`: stream the body into the response writer.  If the
write side fails before the whole body is through, the copy stops there with
the write error; otherwise all available bytes are written and the copy ends
with the body's read error (or cleanly). -/
def ioCopy (w : ResponseWriter) (src : Body) (wo : WriteOutcome) :
    ResponseWriter × Option IOErr :=
  match wo with
  | .ok => ({ w with wrote := w.wrote ++ src.avail }, src.readErr)
  | .fail n e =>
    if n < src.avail.length then
      ({ w with wrote := w.wrote ++ src.avail.take n }, some e)
    else
      ({ w with wrote := w.wrote ++ src.avail }, src.readErr)

/-- The bytes of an ASCII string, as Unicode code points (identical to the
UTF-8 bytes for the ASCII literals this program uses). -/
def strBytes (s : String) : Bytes :=
  s.data.map (fun c => c.toNat)

/-- `http.Error(w, msg, code)`: set the status code and write the message
followed by a newline. -/
def httpError (w : ResponseWriter) (msg : Bytes) (code : Nat) : ResponseWriter :=
  { w with status := some code, wrote := w.wrote ++ msg ++ [10] }

/-- The message the echo handler logs when the copy fails. -/
def echoWarnMsg : String := "Failed to handle request: "

/-- The message the hello handler logs when reading the body fails. -/
def readFailMsg : String := "failed to read request"

/-- The message the hello handler logs when writing the greeting fails. -/
def writeFailMsg : String := "failed to write response"

/-- The generic error message body sent via `http.Error`. -/
def genericErrMsg : String := "internal server error"

/-- The format head of the greeting, from `fmt.Fprintf(w, "hello, %s\n", body)`. -/
def helloHead : String := "hello, "

/-- The mux pattern of the echo handler. -/
def echoPat : String := "/echo"

/-- The mux pattern of the hello handler. -/
def helloPat : String := "/hello"

/-- The configured listen address of the server. -/
def serverAddr : String := ":8080"

/-- The startup log message of the OnStart hook. -/
def startLogMsg : String := "Starting HTTP server at"

/-- The full greeting the hello handler formats for a request body. -/
def greeting (body : Bytes) : Bytes :=
  strBytes helloHead ++ body ++ [10]

/-- `EchoHandler`: holds only the logger reference. -/
structure EchoHandler where
  log : Logger
  deriving DecidableEq, Repr

/-- `NewEchoHandler`: construct an echo handler over the given logger. -/
def NewEchoHandler (log : Logger) : EchoHandler :=
  { log := log }

/-- `EchoHandler.Pattern`: the constant registration pattern. -/
def EchoHandler.Pattern (_ : EchoHandler) : String := echoPat

/-- `EchoHandler.ServeHTTP`: copy the request body into the response; on a
copy error, only log a warning.  The handler value is threaded through so a
(hypothetical) mutation of the receiver would be visible; the source assigns
to no field, so it is returned unchanged. -/
def EchoHandler.ServeHTTP (e : EchoHandler) (w : ResponseWriter) (r : Request)
    (wo : WriteOutcome) : EchoHandler × ResponseWriter × List LogEvent :=
  match ioCopy w r.body wo with
  | (w', some _) => (e, w', [LogEvent.warn echoWarnMsg])
  | (w', none) => (e, w', [])

/-- `HelloHandler`: holds only the logger reference. -/
structure HelloHandler where
  log : Logger
  deriving DecidableEq, Repr

/-- `NewHelloHandler`: construct a hello handler over the given logger. -/
def NewHelloHandler (log : Logger) : HelloHandler :=
  { log := log }

/-- `HelloHandler.Pattern`: the constant registration pattern. -/
def HelloHandler.Pattern (_ : HelloHandler) : String := helloPat

/-- `HelloHandler.ServeHTTP`: read the whole body; on read error log and
answer 400 with the generic message; otherwise write the greeting; on write
error log and answer 400 with the generic message; otherwise done. -/
def HelloHandler.ServeHTTP (h : HelloHandler) (w : ResponseWriter) (r : Request)
    (wo : WriteOutcome) : HelloHandler × ResponseWriter × List LogEvent :=
  match ReadAll r.body with
  | (_, some _) =>
    (h, httpError w (strBytes genericErrMsg) 400, [LogEvent.error readFailMsg])
  | (body, none) =>
    match w.write (greeting body) wo with
    | (w', some _) =>
      (h, httpError w' (strBytes genericErrMsg) 400, [LogEvent.error writeFailMsg])
    | (w', none) => (h, w', [])

/-- The `Route` interface: an http handler that knows the mux pattern under
which it is registered. -/
structure Route where
  pattern : String
  serve : ResponseWriter → Request → WriteOutcome → ResponseWriter × List LogEvent

/-- `Route.Pattern` reports the path at which this route is registered. -/
def Route.Pattern (r : Route) : String := r.pattern

/-- The echo handler seen through the `Route` interface (`fx.As(new(Route))`). -/
def EchoHandler.toRoute (e : EchoHandler) : Route :=
  { pattern := e.Pattern,
    serve := fun w r wo => (e.ServeHTTP w r wo).2 }

/-- The hello handler seen through the `Route` interface. -/
def HelloHandler.toRoute (h : HelloHandler) : Route :=
  { pattern := h.Pattern,
    serve := fun w r wo => (h.ServeHTTP w r wo).2 }

/-- An `http.ServeMux` registration table: patterns mapped to routes. -/
abbrev Mux := List (String × Route)

/-- The prefix of the duplicate-registration panic message of `mux.Handle`. -/
def multiRegMsg : String := "http: multiple registrations for "

/-- The invalid-pattern panic message of `mux.Handle`. -/
def invalidPatMsg : String := "http: invalid pattern"

/-- The empty pattern, invalid in every Go version. -/
def emptyPat : String := ""

/-- `mux.Handle(pattern, handler)`: register, or abort construction (the
stdlib panics) when the pattern is invalid — the empty pattern panics in
every Go version — or when a handler already exists for the pattern.  The
finer pattern-conflict rules of Go 1.22+ are not modelled beyond exact
duplicates: the patterns this program registers are plain non-empty paths,
for which exact duplication is the only conflict. -/
def muxHandle (m : Mux) (pat : String) (r : Route) : Except String Mux :=
  if pat = emptyPat then
    Except.error invalidPatMsg
  else if m.any (fun q => q.1 = pat) then
    Except.error (multiRegMsg ++ pat)
  else
    Except.ok (m ++ [(pat, r)])

/-- `NewServeMux(route1, route2)`: a fresh mux with both routes registered
under their own patterns; construction aborts if a registration panics. -/
def NewServeMux (route1 route2 : Route) : Except String Mux :=
  match muxHandle [] route1.Pattern route1 with
  | Except.error s => Except.error s
  | Except.ok m => muxHandle m route2.Pattern route2

/-- Exact-path dispatch of the mux: the route registered under exactly this
path, if any. -/
def muxLookup (m : Mux) (path : String) : Option Route :=
  match m.find? (fun q => q.1 = path) with
  | some q => some q.2
  | none => none

/-- Whether an `Except` computation succeeded. -/
def exceptOk {ε α : Type} (x : Except ε α) : Bool :=
  match x with
  | Except.ok _ => true
  | Except.error _ => false

/-- A bound TCP listener (the result of a successful `net.Listen`). -/
structure Listener where
  id : Nat
  deriving DecidableEq, Repr

/-- The part of `http.Server` the lifecycle hooks use. -/
structure Server where
  addr : String
  deriving DecidableEq, Repr

/-- `NewHTTPServer` builds the server on the fixed configured address. -/
def NewHTTPServer : Server :=
  { addr := serverAddr }

/-- A background `srv.Serve(ln)` task spawned with `go`. -/
structure ServeTask where
  srvAddr : String
  ln : Listener
  deriving DecidableEq, Repr

/-- The OnStart hook body of `NewHTTPServer`: bind the listener (`bind` is
the outcome of `net.Listen("tcp", srv.Addr)`); on failure return the bind
error having spawned nothing and logged nothing; on success log the startup
message, spawn the one background serve task, and return control with nil
error. -/
def OnStart (srv : Server) (bind : Except IOErr Listener) :
    Except IOErr Unit × List ServeTask × List LogEvent :=
  match bind with
  | Except.error e => (Except.error e, [], [])
  | Except.ok ln =>
    (Except.ok (), [{ srvAddr := srv.addr, ln := ln }], [LogEvent.info startLogMsg])

/-- The OnStop hook body: `return srv.Shutdown(ctx)` — the shutdown outcome
is propagated to the supervisor unchanged. -/
def OnStop (shutdownResult : Except IOErr Unit) : Except IOErr Unit :=
  shutdownResult

/-- Serve a sequence of requests with the echo handler, each on a fresh
response writer, threading the handler state. -/
def echoServeAll (e : EchoHandler) (reqs : List (Request × WriteOutcome)) :
    EchoHandler :=
  reqs.foldl (fun h p => (h.ServeHTTP ResponseWriter.init p.1 p.2).1) e

/-- Serve a sequence of requests with the hello handler, each on a fresh
response writer, threading the handler state. -/
def helloServeAll (h : HelloHandler) (reqs : List (Request × WriteOutcome)) :
    HelloHandler :=
  reqs.foldl (fun g p => (g.ServeHTTP ResponseWriter.init p.1 p.2).1) h

/-- A byte is an ASCII control character. -/
def isCtrl (b : Byte) : Bool :=
  b < 32 || b == 127

/-- Concrete sample values used by the witness theorems. -/
def logger0 : Logger := { id := 0 }

/-- A concrete echo handler. -/
def e0 : EchoHandler := NewEchoHandler logger0

/-- A concrete hello handler. -/
def h0 : HelloHandler := NewHelloHandler logger0

/-- A concrete server. -/
def srv0 : Server := NewHTTPServer

/-- The bytes of the word used in the spec's concrete hello scenario. -/
def wBytes : Bytes := [119, 111, 114, 108, 100]

theorem echo_serve_ok (e : EchoHandler) (B : Bytes) :
    EchoHandler.ServeHTTP e ResponseWriter.init
        { body := { avail := B, readErr := none } } WriteOutcome.ok =
      (e, { status := none, wrote := B }, []) := by
  simp [EchoHandler.ServeHTTP, ioCopy, ResponseWriter.init]

theorem hello_serve_ok (h : HelloHandler) (B : Bytes) :
    HelloHandler.ServeHTTP h ResponseWriter.init
        { body := { avail := B, readErr := none } } WriteOutcome.ok =
      (h, { status := none, wrote := greeting B }, []) := by
  simp [HelloHandler.ServeHTTP, ReadAll, ResponseWriter.write, ResponseWriter.init]

theorem echo_step_fst (e : EchoHandler) (w : ResponseWriter) (r : Request)
    (wo : WriteOutcome) : (EchoHandler.ServeHTTP e w r wo).1 = e := by
  rcases hc : ioCopy w r.body wo with ⟨w', err⟩
  cases err <;> simp [EchoHandler.ServeHTTP, hc]

theorem hello_step_fst (h : HelloHandler) (w : ResponseWriter) (r : Request)
    (wo : WriteOutcome) : (HelloHandler.ServeHTTP h w r wo).1 = h := by
  rcases r with ⟨⟨avail, readErr⟩⟩
  cases readErr <;> cases wo <;>
    simp [HelloHandler.ServeHTTP, ReadAll, ResponseWriter.write]

theorem echoServeAll_id (reqs : List (Request × WriteOutcome)) :
    ∀ e, echoServeAll e reqs = e := by
  induction reqs with
  | nil => intro e; rfl
  | cons p ps ih =>
    intro e
    have hstep : echoServeAll e (p :: ps) =
        echoServeAll ((EchoHandler.ServeHTTP e ResponseWriter.init p.1 p.2).1) ps := rfl
    rw [hstep, echo_step_fst]
    exact ih e

theorem helloServeAll_id (reqs : List (Request × WriteOutcome)) :
    ∀ h, helloServeAll h reqs = h := by
  induction reqs with
  | nil => intro h; rfl
  | cons p ps ih =>
    intro h
    have hstep : helloServeAll h (p :: ps) =
        helloServeAll ((HelloHandler.ServeHTTP h ResponseWriter.init p.1 p.2).1) ps := rfl
    rw [hstep, hello_step_fst]
    exact ih h

/-- Claim C1: for every byte sequence B, a request to /echo whose body delivers
exactly B with no read error, served with fault-free writes, is answered with
effective status 200 and a response body exactly B — nothing more, nothing
less — with the handler unchanged and nothing logged. -/
theorem echo_roundtrip (e : EchoHandler) (B : Bytes) :
    EchoHandler.ServeHTTP e ResponseWriter.init
        { body := { avail := B, readErr := none } } WriteOutcome.ok =
      (e, { status := none, wrote := B }, []) ∧
    ResponseWriter.effectiveStatus { status := none, wrote := B } = 200 :=
  ⟨echo_serve_ok e B, rfl⟩

/-- Claim C2: for every byte string S free of control characters, a request to
/hello with body S, when both the read and the write succeed, is answered with
effective status 200 and body exactly the bytes of "hello, " ++ S ++ newline. -/
theorem hello_ctrl_free (h : HelloHandler) (S : Bytes)
    (_hS : ∀ b ∈ S, isCtrl b = false) :
    HelloHandler.ServeHTTP h ResponseWriter.init
        { body := { avail := S, readErr := none } } WriteOutcome.ok =
      (h, { status := none, wrote := strBytes helloHead ++ S ++ [10] }, []) ∧
    ResponseWriter.effectiveStatus
        { status := none, wrote := strBytes helloHead ++ S ++ [10] } = 200 :=
  ⟨by simpa [greeting] using hello_serve_ok h S, rfl⟩

/-- Witness for C2 at the concrete control-character-free body of the spec's
hello scenario. -/
theorem hello_ctrl_free_witness :
    (∀ b ∈ wBytes, isCtrl b = false) ∧
    (HelloHandler.ServeHTTP h0 ResponseWriter.init
        { body := { avail := wBytes, readErr := none } } WriteOutcome.ok =
      (h0, { status := none, wrote := strBytes helloHead ++ wBytes ++ [10] }, []) ∧
    ResponseWriter.effectiveStatus
        { status := none, wrote := strBytes helloHead ++ wBytes ++ [10] } = 200) :=
  ⟨by decide, hello_ctrl_free h0 wBytes (by decide)⟩

/-- Claim C3: on a /hello request, a read failure yields status 400 with the
generic error message body and the greeting is never written; a write failure
yields status 400 with the generic error message appended after the partial
greeting bytes that reached the wire; in both cases exactly one error is
logged and nothing further happens. -/
theorem hello_failure_400 (h : HelloHandler) (B : Bytes) (re we : IOErr)
    (n : Nat) (wo : WriteOutcome) :
    HelloHandler.ServeHTTP h ResponseWriter.init
        { body := { avail := B, readErr := some re } } wo =
      (h, { status := some 400, wrote := strBytes genericErrMsg ++ [10] },
        [LogEvent.error readFailMsg]) ∧
    HelloHandler.ServeHTTP h ResponseWriter.init
        { body := { avail := B, readErr := none } } (WriteOutcome.fail n we) =
      (h, { status := some 400,
            wrote := (greeting B).take n ++ (strBytes genericErrMsg ++ [10]) },
        [LogEvent.error writeFailMsg]) := by
  constructor
  · simp [HelloHandler.ServeHTTP, ReadAll, httpError, ResponseWriter.init]
  · simp [HelloHandler.ServeHTTP, ReadAll, ResponseWriter.write, httpError,
      ResponseWriter.init]

/-- Claim C4: when the /echo copy fails partway (write-side failure after n of
the body bytes, or a read error mid-stream), the handler only logs a warning:
the status stays unset (so 200 is reported), the body is exactly the partial
state the copy reached, and no error message is written; every other error
site of the system surfaces its error — the hello handler sets status 400 on
read and on write failure, and the OnStart and OnStop hooks return bind and
shutdown errors to the supervisor. -/
theorem echo_copy_failure_logged_only (e : EchoHandler) (B B2 : Bytes) (n : Nat)
    (err re sd : IOErr) (h2 : HelloHandler) (srv : Server)
    (hn : n < B.length) :
    EchoHandler.ServeHTTP e ResponseWriter.init
        { body := { avail := B, readErr := none } } (WriteOutcome.fail n err) =
      (e, { status := none, wrote := B.take n }, [LogEvent.warn echoWarnMsg]) ∧
    EchoHandler.ServeHTTP e ResponseWriter.init
        { body := { avail := B2, readErr := some re } } WriteOutcome.ok =
      (e, { status := none, wrote := B2 }, [LogEvent.warn echoWarnMsg]) ∧
    (HelloHandler.ServeHTTP h2 ResponseWriter.init
        { body := { avail := B2, readErr := some re } }
        WriteOutcome.ok).2.1.status = some 400 ∧
    (HelloHandler.ServeHTTP h2 ResponseWriter.init
        { body := { avail := B2, readErr := none } }
        (WriteOutcome.fail n err)).2.1.status = some 400 ∧
    OnStart srv (Except.error sd) = (Except.error sd, [], []) ∧
    OnStop (Except.error sd) = Except.error sd := by
  refine ⟨?_, ?_, ?_, ?_, rfl, rfl⟩
  · simp [EchoHandler.ServeHTTP, ioCopy, ResponseWriter.init, hn]
  · simp [EchoHandler.ServeHTTP, ioCopy, ResponseWriter.init]
  · simp [HelloHandler.ServeHTTP, ReadAll, httpError]
  · simp [HelloHandler.ServeHTTP, ReadAll, ResponseWriter.write, httpError]

/-- Witness for C4 at a concrete three-byte body with the write failing after
one byte. -/
theorem echo_copy_failure_logged_only_witness :
    1 < ([3, 4, 5] : Bytes).length ∧
    (EchoHandler.ServeHTTP e0 ResponseWriter.init
        { body := { avail := [3, 4, 5], readErr := none } }
        (WriteOutcome.fail 1 { code := 7 }) =
      (e0, { status := none, wrote := ([3, 4, 5] : Bytes).take 1 },
        [LogEvent.warn echoWarnMsg]) ∧
    EchoHandler.ServeHTTP e0 ResponseWriter.init
        { body := { avail := [9], readErr := some { code := 8 } } }
        WriteOutcome.ok =
      (e0, { status := none, wrote := [9] }, [LogEvent.warn echoWarnMsg]) ∧
    (HelloHandler.ServeHTTP h0 ResponseWriter.init
        { body := { avail := [9], readErr := some { code := 8 } } }
        WriteOutcome.ok).2.1.status = some 400 ∧
    (HelloHandler.ServeHTTP h0 ResponseWriter.init
        { body := { avail := [9], readErr := none } }
        (WriteOutcome.fail 1 { code := 7 })).2.1.status = some 400 ∧
    OnStart srv0 (Except.error { code := 6 }) =
      (Except.error { code := 6 }, [], []) ∧
    OnStop (Except.error { code := 6 }) = Except.error { code := 6 }) :=
  ⟨by decide,
    echo_copy_failure_logged_only e0 [3, 4, 5] [9] 1
      { code := 7 } { code := 8 } { code := 6 } h0 srv0 (by decide)⟩

/-- A route whose reported pattern is the empty (invalid) pattern. -/
def emptyRoute : Route :=
  { pattern := emptyPat, serve := fun w _ _ => (w, []) }

/-- Claim C5 (amended): NewServeMux fails (the stdlib registration panics)
exactly when a route reports the invalid empty pattern or the two routes
report the same pattern; with two distinct valid patterns it succeeds and the
resulting mux maps each pattern to its own route under exact-path lookup. -/
theorem mux_duplicate_iff_valid (route1 route2 : Route) :
    (exceptOk (NewServeMux route1 route2) = false ↔
      (route1.Pattern = emptyPat ∨ route2.Pattern = emptyPat ∨
        route1.Pattern = route2.Pattern)) ∧
    (route1.Pattern ≠ emptyPat → route2.Pattern ≠ emptyPat →
      route1.Pattern ≠ route2.Pattern →
      NewServeMux route1 route2 =
        Except.ok [(route1.Pattern, route1), (route2.Pattern, route2)] ∧
      muxLookup [(route1.Pattern, route1), (route2.Pattern, route2)]
          route1.Pattern = some route1 ∧
      muxLookup [(route1.Pattern, route1), (route2.Pattern, route2)]
          route2.Pattern = some route2) := by
  constructor
  · by_cases h1 : route1.Pattern = emptyPat
    · simp [NewServeMux, muxHandle, exceptOk, h1]
    · by_cases h2 : route2.Pattern = emptyPat
      · simp [NewServeMux, muxHandle, exceptOk, h1, h2]
      · by_cases hp : route1.Pattern = route2.Pattern
        · simp [NewServeMux, muxHandle, exceptOk, h1, h2, hp]
        · simp [NewServeMux, muxHandle, exceptOk, h1, h2, hp]
  · intro h1 h2 hp
    refine ⟨?_, ?_, ?_⟩
    · simp [NewServeMux, muxHandle, h1, h2, hp]
    · simp [muxLookup, List.find?]
    · simp [muxLookup, List.find?, hp]

/-- The concrete echo route of the assembled application. -/
def echoRoute0 : Route := EchoHandler.toRoute e0

/-- The concrete hello route of the assembled application. -/
def helloRoute0 : Route := HelloHandler.toRoute h0

/-- Counterexample to C5 as stated: a route reporting the invalid empty
pattern and the concrete hello route have distinct patterns, yet NewServeMux
fails on them — so construction failure is not equivalent to pattern
equality, and two distinct patterns do not guarantee success. -/
theorem mux_duplicate_iff_cex :
    Route.Pattern emptyRoute ≠ Route.Pattern helloRoute0 ∧
    exceptOk (NewServeMux emptyRoute helloRoute0) = false :=
  ⟨by decide, rfl⟩

/-- Witness for the amended C5 at the two concrete routes of the application. -/
theorem mux_duplicate_iff_valid_witness :
    echoRoute0.Pattern ≠ emptyPat ∧ helloRoute0.Pattern ≠ emptyPat ∧
    echoRoute0.Pattern ≠ helloRoute0.Pattern ∧
    (NewServeMux echoRoute0 helloRoute0 =
        Except.ok [(echoRoute0.Pattern, echoRoute0),
          (helloRoute0.Pattern, helloRoute0)] ∧
      muxLookup [(echoRoute0.Pattern, echoRoute0),
          (helloRoute0.Pattern, helloRoute0)] echoRoute0.Pattern =
        some echoRoute0 ∧
      muxLookup [(echoRoute0.Pattern, echoRoute0),
          (helloRoute0.Pattern, helloRoute0)] helloRoute0.Pattern =
        some helloRoute0) :=
  ⟨by decide, by decide, by decide,
    (mux_duplicate_iff_valid echoRoute0 helloRoute0).2
      (by decide) (by decide) (by decide)⟩

/-- Claim C6: when the bind of the listener fails, the OnStart hook returns
exactly that bind error, spawns no background serve task, and logs nothing —
the error return happens with the serve task never created. -/
theorem onstart_bind_failure (srv : Server) (e : IOErr) :
    OnStart srv (Except.error e) = (Except.error e, [], []) := rfl

/-- Claim C7: when the bind succeeds, the OnStart hook spawns exactly one
background serve task for this server and listener, logs the startup message,
and returns control with a nil error — the serve loop runs as a spawned task,
not inline in the hook. -/
theorem onstart_ok_spawns (srv : Server) (ln : Listener) :
    OnStart srv (Except.ok ln) =
      (Except.ok (), [{ srvAddr := srv.addr, ln := ln }],
        [LogEvent.info startLogMsg]) := rfl

/-- Claim C8: for every request body B whatsoever — the empty body, control
characters, arbitrary bytes — the hello handler, when read and write succeed,
answers with effective status 200 and body "hello, " ++ B ++ newline; in
particular the empty body yields exactly "hello, " followed by the newline. -/
theorem hello_any_body (h : HelloHandler) (B : Bytes) :
    HelloHandler.ServeHTTP h ResponseWriter.init
        { body := { avail := B, readErr := none } } WriteOutcome.ok =
      (h, { status := none, wrote := strBytes helloHead ++ B ++ [10] }, []) ∧
    strBytes helloHead ++ ([] : Bytes) ++ [10] = strBytes helloHead ++ [10] ∧
    ResponseWriter.effectiveStatus
        { status := none, wrote := strBytes helloHead ++ B ++ [10] } = 200 :=
  ⟨by simpa [greeting] using hello_serve_ok h B, by simp, rfl⟩

/-- Claim C9: every echo handler reports pattern "/echo" and every hello
handler reports pattern "/hello", independent of handler state; the two are
distinct, so NewServeMux applied to the application's two routes always
succeeds — its duplicate-registration branch is unreachable there. -/
theorem patterns_constant_mux_ok (e : EchoHandler) (h : HelloHandler) :
    EchoHandler.Pattern e = echoPat ∧ HelloHandler.Pattern h = helloPat ∧
    EchoHandler.Pattern e ≠ HelloHandler.Pattern h ∧
    exceptOk (NewServeMux e.toRoute h.toRoute) = true := by
  have hne : echoPat ≠ helloPat := by decide
  exact ⟨rfl, rfl,
    by simpa [EchoHandler.Pattern, HelloHandler.Pattern] using hne, rfl⟩

/-- Claim C10: serving requests never changes handler state: one ServeHTTP
step returns the receiver unchanged for both handlers, the constructors store
only the logger, and after any sequence of requests each handler still equals
the value its constructor produced. -/
theorem handlers_unchanged (log : Logger) (reqs : List (Request × WriteOutcome))
    (e : EchoHandler) (h : HelloHandler) (w : ResponseWriter) (r : Request)
    (wo : WriteOutcome) :
    (EchoHandler.ServeHTTP e w r wo).1 = e ∧
    (HelloHandler.ServeHTTP h w r wo).1 = h ∧
    NewEchoHandler log = { log := log } ∧
    NewHelloHandler log = { log := log } ∧
    echoServeAll (NewEchoHandler log) reqs = NewEchoHandler log ∧
    helloServeAll (NewHelloHandler log) reqs = NewHelloHandler log :=
  ⟨echo_step_fst e w r wo, hello_step_fst h w r wo, rfl, rfl,
    echoServeAll_id reqs _, helloServeAll_id reqs _⟩
